import Mathlib

/-!
# Livesitter stream session manager: verification of the specification

Shallow embedding of the Livesitter repository's core: the Stream Session
Manager (session state machine, session registry with a concurrency budget,
periodic liveness sweep, status snapshots) together with the frontend's
`convertStreamToApi` conversion and the `OverlayManager` drag clamping.

The backend implementation of the Session Manager is not among the repository
sources (only its configuration file, its API documentation and its HTTP
clients are), so those definitions are modelled from the specification's
words and carry a `Modelled from the spec:` doc comment.  The frontend
TypeScript functions are embedded directly from the sources.
-/

namespace Livesitter

/-! ## Configuration (from the backend `.env` file in the sources) -/

/-- `FFMPEG_PATH=ffmpeg` from the backend configuration file. -/
def FFMPEG_PATH : String := "ffmpeg"

/-- `HLS_SEGMENT_DURATION=2` from the backend configuration file. -/
def HLS_SEGMENT_DURATION : Nat := 2

/-- `HLS_PLAYLIST_LENGTH=10` from the backend configuration file. -/
def HLS_PLAYLIST_LENGTH : Nat := 10

/-- `STREAM_TIMEOUT=30` from the backend configuration file. -/
def STREAM_TIMEOUT : Nat := 30

/-- `MAX_STREAMS=5` from the backend configuration file. -/
def MAX_STREAMS : Nat := 5

/-! ## Session state machine

Modelled from the spec: the backend module implementing the Session State
Machine and Session Registry is missing from the sources; the definitions
below follow sections 3, 4.3 and 4.4 of the specification. -/

/-- Modelled from the spec: the six session states of the Session State
Machine (spec section 3: `state: one of {Idle, Starting, Running, Stopping,
Stopped, Error}`). -/
inductive SessionState where
  | idle
  | starting
  | running
  | stopping
  | stopped
  | error
deriving DecidableEq, Repr

/-- Modelled from the spec: the error taxonomy of section 7 that can be
recorded in a session's `lastError` field. -/
inductive ErrReason where
  | spawnFailed
  | noOutputProduced
  | unexpectedExit
deriving DecidableEq, Repr

/-- A state counts against the concurrency budget when it is in
`{Starting, Running, Stopping}` (spec section 4.4). -/
def SessionState.isActive : SessionState → Bool
  | .starting => true
  | .running => true
  | .stopping => true
  | _ => false

/-- Modelled from the spec: the Session record of spec section 3, with the
output-directory artifacts abstracted to an existence flag and the process
handle to an optional OS process id. -/
structure Session where
  streamId : Nat
  rtspUrl : String
  state : SessionState
  processHandle : Option Nat
  outputDirExists : Bool
  startedAt : Option Nat
  stoppedAt : Option Nat
  lastError : Option ErrReason
deriving DecidableEq, Repr

/-- Modelled from the spec: a Session is created in Idle when a start is
requested for a streamId with no existing entry (spec section 3, Lifecycle). -/
def mkIdleSession (id : Nat) (url : String) : Session :=
  { streamId := id
    rtspUrl := url
    state := .idle
    processHandle := none
    outputDirExists := false
    startedAt := none
    stoppedAt := none
    lastError := none }

/-- The environment's resolution of one start attempt: the launch fails, the
encoder launches but produces no output within the stream timeout, or the
encoder launches with the given process id and produces output. -/
inductive StartOutcome where
  | launchFail
  | noOutput
  | ok (pid : Nat)
deriving DecidableEq, Repr

/-- Modelled from the spec: entering Starting prepares the output directory
(spec section 4.3, Starting). -/
def enterStarting (s : Session) : Session :=
  { s with state := .starting, outputDirExists := true }

/-- Modelled from the spec: drive a fresh session through Starting to its
post-start state (spec section 4.3): launch failure or output timeout end in
Error with the output purged; success ends in Running with the process handle
held and `startedAt` recorded. -/
def driveStart (now : Nat) (oc : StartOutcome) (s : Session) : Session :=
  match oc with
  | .launchFail =>
      { enterStarting s with
        state := .error, outputDirExists := false, lastError := some .spawnFailed }
  | .noOutput =>
      { enterStarting s with
        state := .error, outputDirExists := false, lastError := some .noOutputProduced }
  | .ok pid =>
      { enterStarting s with
        state := .running, processHandle := some pid, startedAt := some now }

/-- Modelled from the spec: the first phase of an explicit stop, entering
Stopping and invoking `terminate()` (spec section 4.3, Stopping). -/
def beginStopping (s : Session) : Session :=
  { s with state := .stopping }

/-- Modelled from the spec: the second phase of an explicit stop: the process
has exited, the output directory is purged, and the session reaches Stopped
(spec section 4.3, Stopping). -/
def finishStopping (now : Nat) (s : Session) : Session :=
  { s with
    state := .stopped
    processHandle := none
    outputDirExists := false
    stoppedAt := some now }

/-- The full explicit-stop transition: through Stopping to Stopped. -/
def stopTransition (now : Nat) (s : Session) : Session :=
  finishStopping now (beginStopping s)

/-- Whether an optional process handle refers to a dead process, given the
liveness oracle `dead`. -/
def procDead (dead : Nat → Bool) : Option Nat → Bool
  | none => false
  | some pid => dead pid

/-- Modelled from the spec: the per-session effect of one liveness sweep
(spec section 4.4): a Running session whose process has died is driven to
Error with `lastError = UnexpectedExit`, its handle dropped and its output
purged; every other session is untouched. -/
def sweepSession (dead : Nat → Bool) (s : Session) : Session :=
  if s.state = .running then
    if procDead dead s.processHandle then
      { s with
        state := .error
        processHandle := none
        outputDirExists := false
        lastError := some .unexpectedExit }
    else s
  else s

/-! ## Session registry and concurrency governor -/

/-- Modelled from the spec: the in-memory registry mapping stream identity to
its active session, with the configured maximum number of concurrent
sessions (spec section 4.4). -/
structure Registry where
  sessions : List Session
  maxStreams : Nat
deriving Repr

/-- The empty registry with concurrency budget `m`. -/
def Registry.init (m : Nat) : Registry :=
  { sessions := [], maxStreams := m }

/-- Registry lookup by streamId. -/
def Registry.findSession (r : Registry) (id : Nat) : Option Session :=
  r.sessions.find? (fun s => s.streamId == id)

/-- The number of sessions in `{Starting, Running, Stopping}` counted
against `MAX_STREAMS` (spec section 4.4). -/
def Registry.activeCount (r : Registry) : Nat :=
  (r.sessions.filter (fun s => s.state.isActive)).length

/-- Result of a start request (spec section 4.4). -/
inductive StartResult where
  | capacityExceeded
  | alreadyActive (st : SessionState)
  | attempted (st : SessionState)
deriving DecidableEq, Repr

/-- Modelled from the spec: fresh start path of `startSession`: the capacity
check happens before any mutation (spec section 4.4); on capacity the
registry is returned untouched, otherwise any stale Stopped/Error entry for
the id is lazily evicted and a fresh session is driven from Idle through
Starting. -/
def startFresh (r : Registry) (id : Nat) (url : String) (now : Nat)
    (oc : StartOutcome) : Registry × StartResult :=
  if r.maxStreams ≤ r.activeCount then
    (r, .capacityExceeded)
  else
    ({ r with
       sessions :=
         driveStart now oc (mkIdleSession id url) ::
           r.sessions.filter (fun t => !(t.streamId == id)) },
      .attempted (driveStart now oc (mkIdleSession id url)).state)

/-- Modelled from the spec: `startSession(streamId, source, settings)` of
spec section 4.4.  A start on a session that is already active is an
idempotent no-op returning the current status (spec section 4.3 tie-break
policy); otherwise a fresh attempt is made subject to the capacity check. -/
def startSessionFn (r : Registry) (id : Nat) (url : String) (now : Nat)
    (oc : StartOutcome) : Registry × StartResult :=
  match r.findSession id with
  | some s =>
      if s.state.isActive then (r, .alreadyActive s.state)
      else startFresh r id url now oc
  | none => startFresh r id url now oc

/-- Result of a stop request (spec section 4.4). -/
inductive StopResult where
  | notFound
  | stopOk
  | noopStatus (st : SessionState)
deriving DecidableEq, Repr

/-- Modelled from the spec: `stopSession(streamId)` of spec section 4.4: an
unknown id yields NotFound with no state mutated; an active session is driven
through Stopping to Stopped; a stop on a terminal session returns its status
without change. -/
def stopSessionFn (r : Registry) (id : Nat) (now : Nat) : Registry × StopResult :=
  match r.findSession id with
  | none => (r, .notFound)
  | some s =>
      if s.state.isActive then
        ({ r with
           sessions := r.sessions.map
             (fun t => if t.streamId == id then stopTransition now t else t) },
          .stopOk)
      else (r, .noopStatus s.state)

/-- Modelled from the spec: one pass of the periodic liveness sweep over all
sessions (spec section 4.4), parameterised by the process-liveness oracle. -/
def Registry.sweep (r : Registry) (dead : Nat → Bool) : Registry :=
  { r with sessions := r.sessions.map (sweepSession dead) }

/-- Modelled from the spec: explicit deletion removes the registry entry for
the id (spec section 4.4, removal on explicit delete). -/
def Registry.deleteSession (r : Registry) (id : Nat) : Registry :=
  { r with sessions := r.sessions.filter (fun s => !(s.streamId == id)) }

/-! ## Status reporting interface -/

/-- The status snapshot record (spec section 4.5 together with the
`StreamStatus` interface declared in the frontend sources); per spec
section 7 the `lastError` reason is part of the snapshot. -/
structure Snapshot where
  exists_ : Bool
  state : SessionState
  sourceUrl : String
  outputLocator : String
  startedAt : Option Nat
  processAlive : Bool
  lastError : Option ErrReason
deriving DecidableEq, Repr

/-- The stream-scoped HLS output locator, as documented in the backend API
documentation (`/streams/{id}/playlist.m3u8`). -/
def hlsUrlOf (id : Nat) : String :=
  "/streams/" ++ toString id ++ "/playlist.m3u8"

/-- Modelled from the spec: `snapshot(streamId)` of spec section 4.5, a pure
read returning a well-formed record for every id and every session state. -/
def snapshotOf (r : Registry) (id : Nat) : Snapshot :=
  match r.findSession id with
  | none =>
      { exists_ := false
        state := .stopped
        sourceUrl := ""
        outputLocator := hlsUrlOf id
        startedAt := none
        processAlive := false
        lastError := none }
  | some s =>
      { exists_ := true
        state := s.state
        sourceUrl := s.rtspUrl
        outputLocator := hlsUrlOf id
        startedAt := s.startedAt
        processAlive := s.processHandle.isSome
        lastError := s.lastError }

/-! ## Operations and reachable registry states -/

/-- One externally triggered registry operation: a start request, a stop
request, one pass of the periodic sweep (with its liveness oracle), a status
query, or an explicit delete. -/
inductive Op where
  | opStart (id : Nat) (url : String) (now : Nat) (oc : StartOutcome)
  | opStop (id : Nat) (now : Nat)
  | opSweep (dead : Nat → Bool)
  | opGetStatus (id : Nat)
  | opDelete (id : Nat)

/-- The registry after one operation. -/
def applyOp (r : Registry) : Op → Registry
  | .opStart id url now oc => (startSessionFn r id url now oc).1
  | .opStop id now => (stopSessionFn r id now).1
  | .opSweep dead => r.sweep dead
  | .opGetStatus _ => r
  | .opDelete id => r.deleteSession id

/-- The registry reached from the empty registry with budget `m` by a
sequence of operations. -/
def runOps (m : Nat) (ops : List Op) : Registry :=
  ops.foldl applyOp (Registry.init m)

/-- Number of sessions in a list carrying the given streamId. -/
def countId (l : List Session) (id : Nat) : Nat :=
  (l.filter (fun s => s.streamId == id)).length

/-! ## Encoder invocation (for the default HLS settings) -/

/-- The encoding settings of spec section 3: segment duration and playlist
window length are optional and fall back to the configured defaults. -/
structure EncodingSettings where
  resolution : String
  fps : Nat
  bitrate : String
  segmentDuration : Option Nat
  playlistLength : Option Nat
deriving DecidableEq, Repr

/-- The structured encoder invocation built by the Encoder Process Adapter. -/
structure EncoderInvocation where
  exe : String
  input : String
  hlsTime : Nat
  hlsListSize : Nat
  outputPlaylist : String
deriving DecidableEq, Repr

/-- Modelled from the spec: the Encoder Process Adapter's invocation builder
(`launch(sourceURL, settings, outputDir)` of spec section 4.1), whose backend
implementation is missing from the sources: the invocation reads from the
source URL and writes a segmented playlist into the output directory with the
configured segment duration and playlist window, defaulting to
`HLS_SEGMENT_DURATION` and `HLS_PLAYLIST_LENGTH`. -/
def buildEncoderInvocation (sourceUrl : String) (settings : EncodingSettings)
    (outputDir : String) : EncoderInvocation :=
  { exe := FFMPEG_PATH
    input := sourceUrl
    hlsTime := settings.segmentDuration.getD HLS_SEGMENT_DURATION
    hlsListSize := settings.playlistLength.getD HLS_PLAYLIST_LENGTH
    outputPlaylist := outputDir ++ "/playlist.m3u8" }

/-! ## Frontend: `apiUtils.convertStreamToApi` (embedded from the sources) -/

/-- JavaScript `x || d` on an optional string field: an absent or empty
(falsy) string is replaced by the default. -/
def jsOrString (x : Option String) (d : String) : String :=
  match x with
  | none => d
  | some s => if s = "" then d else s

/-- JavaScript `x || d` on an optional numeric field: an absent or zero
(falsy) number is replaced by the default. -/
def jsOrNum (x : Option Int) (d : Int) : Int :=
  match x with
  | none => d
  | some n => if n = 0 then d else n

/-- The settings sub-object of a frontend stream object, every field
possibly absent. -/
structure InStreamSettings where
  quality : Option String
  fps : Option Int
  resolution : Option String
  bitrate : Option String
deriving DecidableEq, Repr

/-- A frontend stream object as passed to `convertStreamToApi`: the
`settings` sub-object itself may be absent. -/
structure InStream where
  name : String
  rtsp_url : String
  settings : Option InStreamSettings
deriving DecidableEq, Repr

/-- The settings record produced by `convertStreamToApi`. -/
structure ApiSettings where
  quality : String
  fps : Int
  resolution : String
  bitrate : String
deriving DecidableEq, Repr

/-- The API stream record produced by `convertStreamToApi`. -/
structure ApiStream where
  name : String
  rtsp_url : String
  settings : ApiSettings
deriving DecidableEq, Repr

/-- `apiUtils.convertStreamToApi` from the frontend API service source:
copies `name` and `rtsp_url` and rebuilds `settings` with JavaScript `||`
defaults `medium`, `30`, `720p`, `1000k`. -/
def convertStreamToApi (stream : InStream) : ApiStream :=
  { name := stream.name
    rtsp_url := stream.rtsp_url
    settings :=
      { quality := jsOrString (stream.settings.bind InStreamSettings.quality) "medium"
        fps := jsOrNum (stream.settings.bind InStreamSettings.fps) 30
        resolution := jsOrString (stream.settings.bind InStreamSettings.resolution) "720p"
        bitrate := jsOrString (stream.settings.bind InStreamSettings.bitrate) "1000k" } }

/-! ## Frontend: `OverlayManager.handleMouseMove` (embedded from the sources) -/

/-- The componentwise clamp of `handleMouseMove`:
`Math.max(0, Math.min(100 - 10, v))`. -/
def clampCoord (v : ℚ) : ℚ :=
  max 0 (min (100 - 10) v)

/-- A 2-dimensional position. -/
structure Point where
  x : ℚ
  y : ℚ
deriving DecidableEq, Repr

/-- `handleMouseMove` from `OverlayManager.tsx`: with no overlay being
dragged, or the dragged overlay not found among the overlays, nothing is
reported; otherwise the raw cursor position relative to the container,
corrected by the drag offset, is clamped componentwise and passed to
`onUpdateOverlay`.  The returned value is the position reported, `none`
when no update is issued. -/
def handleMouseMove (draggedOverlay : Option String) (overlayFound : Bool)
    (clientX clientY rectLeft rectTop offX offY : ℚ) : Option Point :=
  match draggedOverlay with
  | none => none
  | some _ =>
      if overlayFound then
        some
          { x := clampCoord (clientX - rectLeft - offX)
            y := clampCoord (clientY - rectTop - offY) }
      else none

/-! ## Concrete demonstration data (used by witnesses) -/

/-- A running session with the given id and process id. -/
def demoRunning (id pid : Nat) : Session :=
  { streamId := id
    rtspUrl := "rtsp://cam"
    state := .running
    processHandle := some pid
    outputDirExists := true
    startedAt := some 0
    stoppedAt := none
    lastError := none }

/-- A registry at its capacity of `MAX_STREAMS = 5` running sessions. -/
def demoFullRegistry : Registry :=
  { sessions :=
      [demoRunning 1 11, demoRunning 2 12, demoRunning 3 13,
       demoRunning 4 14, demoRunning 5 15]
    maxStreams := MAX_STREAMS }

/-- A frontend stream object with explicit truthy quality, fps and
resolution, and no bitrate. -/
def demoInStream : InStream :=
  { name := "My Stream"
    rtsp_url := "rtsp://cam"
    settings :=
      some { quality := some "high", fps := some 60,
             resolution := some "1080p", bitrate := none } }

/-- A frontend stream object whose settings fields are all explicitly
supplied but falsy (empty strings and zero). -/
def demoFalsyInStream : InStream :=
  { name := "My Stream"
    rtsp_url := "rtsp://cam"
    settings :=
      some { quality := some "", fps := some 0,
             resolution := some "", bitrate := some "" } }

/-- A session that ended in Error after its process died unexpectedly. -/
def demoErrored (id : Nat) : Session :=
  { streamId := id
    rtspUrl := "rtsp://cam"
    state := .error
    processHandle := none
    outputDirExists := false
    startedAt := some 0
    stoppedAt := none
    lastError := some .unexpectedExit }

/-- Session wellformedness: the process handle is held and the output
directory exists exactly when the state is in `{Starting, Running, Stopping}`
(spec section 3 invariants). -/
def sessionWF (s : Session) : Prop :=
  s.processHandle.isSome = s.state.isActive ∧
    s.outputDirExists = s.state.isActive

/-! ## Basic lemmas about the embedding -/

theorem streamId_driveStart (now : Nat) (oc : StartOutcome) (s : Session) :
    (driveStart now oc s).streamId = s.streamId := by
  cases oc <;> rfl

theorem streamId_fresh (id : Nat) (url : String) (now : Nat) (oc : StartOutcome) :
    (driveStart now oc (mkIdleSession id url)).streamId = id := by
  rw [streamId_driveStart]; rfl

theorem streamId_stopTransition (now : Nat) (s : Session) :
    (stopTransition now s).streamId = s.streamId := rfl

theorem streamId_sweepSession (dead : Nat → Bool) (s : Session) :
    (sweepSession dead s).streamId = s.streamId := by
  unfold sweepSession
  split_ifs <;> rfl

theorem eq_of_mem_keysNodup {l : List Session}
    (hnd : (l.map Session.streamId).Nodup) {s t : Session}
    (hs : s ∈ l) (ht : t ∈ l) (h : t.streamId = s.streamId) : t = s := by
  induction l with
  | nil => cases hs
  | cons a l ih =>
      rw [List.map_cons, List.nodup_cons] at hnd
      rcases List.mem_cons.mp hs with rfl | hs2
      · rcases List.mem_cons.mp ht with rfl | ht2
        · rfl
        · exfalso
          apply hnd.1
          rw [← h]
          exact List.mem_map_of_mem Session.streamId ht2
      · rcases List.mem_cons.mp ht with rfl | ht2
        · exfalso
          apply hnd.1
          rw [h]
          exact List.mem_map_of_mem Session.streamId hs2
        · exact ih hnd.2 hs2 ht2

theorem countId_le_one_of_nodup {l : List Session}
    (hnd : (l.map Session.streamId).Nodup) (id : Nat) : countId l id ≤ 1 := by
  induction l with
  | nil => simp [countId]
  | cons a l ih =>
      rw [List.map_cons, List.nodup_cons] at hnd
      by_cases ha : a.streamId = id
      · have hz : l.filter (fun s => s.streamId == id) = [] := by
          rw [List.filter_eq_nil_iff]
          intro t htl hbt
          apply hnd.1
          have ht : t.streamId = id := by simpa using hbt
          rw [ha, ← ht]
          exact List.mem_map_of_mem Session.streamId htl
        simp [countId, List.filter_cons, ha, hz]
      · have hb : (a.streamId == id) = false := by simpa using ha
        simp only [countId, List.filter_cons, hb, Bool.false_eq_true, if_false]
        exact ih hnd.2

theorem keys_map_preserved {f : Session → Session}
    (hf : ∀ s, (f s).streamId = s.streamId) (l : List Session) :
    (l.map f).map Session.streamId = l.map Session.streamId := by
  induction l with
  | nil => rfl
  | cons a l ih => simp [hf a, ih]

theorem nodup_keys_startFresh {r : Registry}
    (hnd : (r.sessions.map Session.streamId).Nodup)
    (id : Nat) (url : String) (now : Nat) (oc : StartOutcome) :
    (((startFresh r id url now oc).1).sessions.map Session.streamId).Nodup := by
  unfold startFresh
  split_ifs with hcap
  · exact hnd
  · simp only [List.map_cons, List.nodup_cons]
    constructor
    · intro hmem
      rw [List.mem_map] at hmem
      obtain ⟨t, htl, hts⟩ := hmem
      rw [List.mem_filter] at htl
      have hne : ¬t.streamId = id := by simpa using htl.2
      apply hne
      rw [hts, streamId_fresh]
    · exact List.Nodup.sublist (List.Sublist.map _ (List.filter_sublist _)) hnd

theorem nodup_keys_applyOp {r : Registry}
    (hnd : (r.sessions.map Session.streamId).Nodup) (op : Op) :
    ((applyOp r op).sessions.map Session.streamId).Nodup := by
  cases op with
  | opStart id url now oc =>
      simp only [applyOp, startSessionFn]
      cases hfind : r.findSession id with
      | none => exact nodup_keys_startFresh hnd id url now oc
      | some s =>
          by_cases hact : s.state.isActive
          · simp only [hact, if_true]
            exact hnd
          · simp only [hact, Bool.false_eq_true, if_false]
            exact nodup_keys_startFresh hnd id url now oc
  | opStop id now =>
      simp only [applyOp, stopSessionFn]
      cases hfind : r.findSession id with
      | none => exact hnd
      | some s =>
          by_cases hact : s.state.isActive
          · simp only [hact, if_true]
            rw [keys_map_preserved]
            · exact hnd
            · intro t
              by_cases h : t.streamId == id <;> simp [h, streamId_stopTransition]
          · simp only [hact, Bool.false_eq_true, if_false]
            exact hnd
  | opSweep dead =>
      simp only [applyOp, Registry.sweep]
      rw [keys_map_preserved (streamId_sweepSession dead)]
      exact hnd
  | opGetStatus id => exact hnd
  | opDelete id =>
      exact List.Nodup.sublist (List.Sublist.map _ (List.filter_sublist _)) hnd

theorem nodup_keys_runOps (m : Nat) (ops : List Op) :
    ((runOps m ops).sessions.map Session.streamId).Nodup := by
  suffices h : ∀ (ops : List Op) (r : Registry),
      (r.sessions.map Session.streamId).Nodup →
      (((ops.foldl applyOp r).sessions).map Session.streamId).Nodup by
    exact h ops (Registry.init m) (by simp [Registry.init])
  intro ops
  induction ops with
  | nil => exact fun r h => h
  | cons o os ih =>
      intro r h
      exact ih (applyOp r o) (nodup_keys_applyOp h o)

theorem sessionWF_fresh (id : Nat) (url : String) (now : Nat) (oc : StartOutcome) :
    sessionWF (driveStart now oc (mkIdleSession id url)) := by
  cases oc <;>
    simp [sessionWF, driveStart, enterStarting, mkIdleSession, SessionState.isActive]

theorem sessionWF_stopTransition (now : Nat) (s : Session) :
    sessionWF (stopTransition now s) := by
  simp [sessionWF, stopTransition, finishStopping, beginStopping, SessionState.isActive]

theorem sessionWF_sweepSession {s : Session} (h : sessionWF s) (dead : Nat → Bool) :
    sessionWF (sweepSession dead s) := by
  unfold sweepSession
  split_ifs with h1 h2
  · simp [sessionWF, SessionState.isActive]
  · exact h
  · exact h

theorem sessionWF_applyOp {r : Registry}
    (h : ∀ s ∈ r.sessions, sessionWF s) (op : Op) :
    ∀ s ∈ (applyOp r op).sessions, sessionWF s := by
  have hfresh : ∀ (id : Nat) (url : String) (now : Nat) (oc : StartOutcome),
      ∀ s ∈ ((startFresh r id url now oc).1).sessions, sessionWF s := by
    intro id url now oc s hs
    unfold startFresh at hs
    split_ifs at hs with hcap
    · exact h s hs
    · simp only at hs
      rcases List.mem_cons.mp hs with rfl | hs2
      · exact sessionWF_fresh id url now oc
      · exact h s (List.mem_of_mem_filter hs2)
  cases op with
  | opStart id url now oc =>
      simp only [applyOp, startSessionFn]
      cases hfind : r.findSession id with
      | none => exact hfresh id url now oc
      | some s0 =>
          by_cases hact : s0.state.isActive
          · simp only [hact, if_true]
            exact h
          · simp only [hact, Bool.false_eq_true, if_false]
            exact hfresh id url now oc
  | opStop id now =>
      simp only [applyOp, stopSessionFn]
      cases hfind : r.findSession id with
      | none => exact h
      | some s0 =>
          by_cases hact : s0.state.isActive
          · simp only [hact, if_true]
            intro s hs
            rw [List.mem_map] at hs
            obtain ⟨t, htl, hts⟩ := hs
            by_cases hid : t.streamId == id
            · rw [← hts]
              simp only [hid, if_true]
              exact sessionWF_stopTransition now t
            · rw [← hts]
              simp only [hid, Bool.false_eq_true, if_false]
              exact h t htl
          · simp only [hact, Bool.false_eq_true, if_false]
            exact h
  | opSweep dead =>
      intro s hs
      simp only [applyOp, Registry.sweep] at hs
      rw [List.mem_map] at hs
      obtain ⟨t, htl, hts⟩ := hs
      rw [← hts]
      exact sessionWF_sweepSession (h t htl) dead
  | opGetStatus id => exact h
  | opDelete id =>
      intro s hs
      simp only [applyOp, Registry.deleteSession] at hs
      exact h s (List.mem_of_mem_filter hs)

theorem sessionWF_runOps (m : Nat) (ops : List Op) :
    ∀ s ∈ (runOps m ops).sessions, sessionWF s := by
  suffices h : ∀ (ops : List Op) (r : Registry),
      (∀ s ∈ r.sessions, sessionWF s) →
      ∀ s ∈ (ops.foldl applyOp r).sessions, sessionWF s by
    exact h ops (Registry.init m) (by simp [Registry.init])
  intro ops
  induction ops with
  | nil => exact fun r h => h
  | cons o os ih =>
      intro r h
      exact ih (applyOp r o) (sessionWF_applyOp h o)

/-! ## Claim theorems -/

/-- C1: for every streamId, at every reachable registry state, the registry
contains at most one live session for that streamId; no sequence of
operations — including back-to-back start requests for the same id — ever
creates a second session for an id that already has one. -/
theorem at_most_one_session_per_streamId (m : Nat) (ops : List Op) (id : Nat) :
    countId (runOps m ops).sessions id ≤ 1 :=
  countId_le_one_of_nodup (nodup_keys_runOps m ops) id

/-- C2: when the number of sessions in `{Starting, Running, Stopping}` equals
the configured maximum, a start request for a streamId with no existing
session returns `CapacityExceeded` and leaves the whole registry — every
session's state and the active-session count — unchanged. -/
theorem capacity_exceeded_no_mutation (r : Registry) (id : Nat) (url : String)
    (now : Nat) (oc : StartOutcome)
    (hcap : r.activeCount = r.maxStreams)
    (hnone : r.findSession id = none) :
    startSessionFn r id url now oc = (r, .capacityExceeded) := by
  simp only [startSessionFn, hnone]
  unfold startFresh
  rw [if_pos (le_of_eq hcap.symm)]

/-- Witness for C2 at the default capacity `MAX_STREAMS = 5`: a sixth start
against a registry holding five running sessions is rejected without
mutation. -/
theorem capacity_exceeded_no_mutation_witness :
    demoFullRegistry.activeCount = demoFullRegistry.maxStreams ∧
    demoFullRegistry.findSession 6 = none ∧
    startSessionFn demoFullRegistry 6 "rtsp://new" 0 (.ok 16) =
      (demoFullRegistry, .capacityExceeded) :=
  ⟨by decide, by decide,
    capacity_exceeded_no_mutation demoFullRegistry 6 "rtsp://new" 0 (.ok 16)
      (by decide) (by decide)⟩

/-- C3: a session's state takes exactly one of the six values Idle, Starting,
Running, Stopping, Stopped, Error, and every state observable through a
status snapshot is drawn from this six-value set. -/
theorem session_state_six_values :
    (∀ st : SessionState,
      st = .idle ∨ st = .starting ∨ st = .running ∨ st = .stopping ∨
        st = .stopped ∨ st = .error) ∧
    (∀ (r : Registry) (id : Nat),
      (snapshotOf r id).state = .idle ∨ (snapshotOf r id).state = .starting ∨
        (snapshotOf r id).state = .running ∨ (snapshotOf r id).state = .stopping ∨
        (snapshotOf r id).state = .stopped ∨ (snapshotOf r id).state = .error) := by
  constructor
  · intro st
    cases st <;> simp
  · intro r id
    generalize (snapshotOf r id).state = st
    cases st <;> simp

/-- C4: in every reachable session, the process handle is held iff the state
is in `{Starting, Running, Stopping}` and likewise for the output-directory
artifacts; in particular a Running session has both and a Stopped session has
neither. -/
theorem process_and_output_iff_active (m : Nat) (ops : List Op) (s : Session)
    (hs : s ∈ (runOps m ops).sessions) :
    (s.processHandle.isSome = s.state.isActive ∧
      s.outputDirExists = s.state.isActive) ∧
    (s.state = .running →
      s.processHandle.isSome = true ∧ s.outputDirExists = true) ∧
    (s.state = .stopped →
      s.processHandle = none ∧ s.outputDirExists = false) := by
  have h := sessionWF_runOps m ops s hs
  refine ⟨h, ?_, ?_⟩
  · intro hr
    exact ⟨by rw [h.1, hr]; rfl, by rw [h.2, hr]; rfl⟩
  · intro hst
    constructor
    · have h1 := h.1
      rw [hst] at h1
      simpa [SessionState.isActive] using h1
    · have h2 := h.2
      rw [hst] at h2
      simpa [SessionState.isActive] using h2

/-- Witness for C4: the running session created by a successful start is in
the reachable registry and satisfies the invariant. -/
theorem process_and_output_iff_active_witness :
    ((demoRunning 1 7).processHandle.isSome = (demoRunning 1 7).state.isActive ∧
      (demoRunning 1 7).outputDirExists = (demoRunning 1 7).state.isActive) ∧
    ((demoRunning 1 7).state = .running →
      (demoRunning 1 7).processHandle.isSome = true ∧
        (demoRunning 1 7).outputDirExists = true) ∧
    ((demoRunning 1 7).state = .stopped →
      (demoRunning 1 7).processHandle = none ∧
        (demoRunning 1 7).outputDirExists = false) :=
  process_and_output_iff_active 5 [.opStart 1 "rtsp://cam" 0 (.ok 7)]
    (demoRunning 1 7) (by decide)

/-- C5: a start request on a session already in Running or Starting is an
idempotent no-op that mutates nothing, spawns no second process, and returns
the current status; two back-to-back starts for the same streamId from an
empty registry yield one session holding the one process of the first start. -/
theorem idempotent_start :
    (∀ (r : Registry) (id : Nat) (url : String) (now : Nat) (oc : StartOutcome)
        (s : Session),
      r.findSession id = some s →
      (s.state = .running ∨ s.state = .starting) →
      startSessionFn r id url now oc = (r, .alreadyActive s.state)) ∧
    (∀ (m id n1 n2 pid : Nat) (url1 url2 : String) (oc2 : StartOutcome),
      1 ≤ m →
      countId (runOps m [.opStart id url1 n1 (.ok pid),
          .opStart id url2 n2 oc2]).sessions id = 1 ∧
      (runOps m [.opStart id url1 n1 (.ok pid),
          .opStart id url2 n2 oc2]).findSession id =
        some (driveStart n1 (.ok pid) (mkIdleSession id url1))) := by
  constructor
  · intro r id url now oc s hf hstate
    have hact : s.state.isActive = true := by
      rcases hstate with h | h <;> rw [h] <;> rfl
    simp only [startSessionFn, hf, hact, if_true]
  · intro m id n1 n2 pid url1 url2 oc2 hm
    have hcap : ¬(m ≤ ({ sessions := [], maxStreams := m } : Registry).activeCount) := by
      simp only [Registry.activeCount, List.filter_nil, List.length_nil]
      omega
    have h1 : applyOp (Registry.init m) (.opStart id url1 n1 (.ok pid)) =
        { sessions := [driveStart n1 (.ok pid) (mkIdleSession id url1)],
          maxStreams := m } := by
      simp only [applyOp, startSessionFn, Registry.findSession, Registry.init,
        List.find?_nil, startFresh]
      rw [if_neg hcap]
      rfl
    have hfid : ((driveStart n1 (.ok pid) (mkIdleSession id url1)).streamId == id)
        = true := by
      rw [streamId_fresh]
      exact beq_self_eq_true id
    have h2 : runOps m [.opStart id url1 n1 (.ok pid), .opStart id url2 n2 oc2] =
        { sessions := [driveStart n1 (.ok pid) (mkIdleSession id url1)],
          maxStreams := m } := by
      show applyOp (applyOp (Registry.init m) (.opStart id url1 n1 (.ok pid)))
        (.opStart id url2 n2 oc2) = _
      rw [h1]
      simp only [applyOp, startSessionFn, Registry.findSession, List.find?_cons,
        hfid]
      rfl
    rw [h2]
    constructor
    · simp [countId, List.filter_cons, hfid]
    · simp [Registry.findSession, List.find?_cons, hfid]

/-- Witness for C5: a second start on a registry already running stream 1 is
a no-op, and the double start from empty leaves exactly one session holding
the first process. -/
theorem idempotent_start_witness :
    startSessionFn ⟨[demoRunning 1 7], 5⟩ 1 "rtsp://other" 3 (.ok 9) =
      (⟨[demoRunning 1 7], 5⟩, .alreadyActive .running) ∧
    countId (runOps 5 [.opStart 1 "rtsp://cam" 0 (.ok 7),
        .opStart 1 "rtsp://other" 3 (.ok 9)]).sessions 1 = 1 :=
  ⟨idempotent_start.1 ⟨[demoRunning 1 7], 5⟩ 1 "rtsp://other" 3 (.ok 9)
      (demoRunning 1 7) (by decide) (Or.inl rfl),
    (idempotent_start.2 5 1 0 3 7 "rtsp://cam" "rtsp://other" (.ok 9)
      (by decide)).1⟩

/-- C6: a session leaves Running only through the liveness sweep — which,
observing the process dead, drives it to Error with
`lastError = UnexpectedExit` — or through an explicit stop request, which
drives it through Stopping to Stopped; no other operation moves a session out
of Running. -/
theorem running_exits_only_via_sweep_or_stop
    (r : Registry) (op : Op) (s t : Session)
    (hnd : (r.sessions.map Session.streamId).Nodup)
    (hs : s ∈ r.sessions) (hrun : s.state = .running)
    (ht : t ∈ (applyOp r op).sessions) (hid : t.streamId = s.streamId)
    (hnot : t.state ≠ .running) :
    (∃ dead, op = .opSweep dead ∧ procDead dead s.processHandle = true ∧
      t.state = .error ∧ t.lastError = some .unexpectedExit) ∨
    (∃ now, op = .opStop s.streamId now ∧
      t = finishStopping now (beginStopping s) ∧
      (beginStopping s).state = .stopping ∧ t.state = .stopped) := by
  have hmem_elim : t ∈ r.sessions → False := by
    intro htl
    apply hnot
    rw [eq_of_mem_keysNodup hnd hs htl hid]
    exact hrun
  cases op with
  | opStart id url now oc =>
      exfalso
      simp only [applyOp, startSessionFn] at ht
      cases hfind : r.findSession id with
      | some s0 =>
          rw [hfind] at ht
          dsimp only at ht
          by_cases hact : s0.state.isActive = true
          · rw [if_pos hact] at ht
            exact hmem_elim ht
          · rw [if_neg hact] at ht
            unfold startFresh at ht
            split_ifs at ht with hcap
            · exact hmem_elim ht
            · dsimp only at ht
              rcases List.mem_cons.mp ht with rfl | ht2
              · have hsid : id = s.streamId := by rw [← hid, streamId_fresh]
                have hs0mem := List.mem_of_find?_eq_some hfind
                have hs0id : s0.streamId = id := by
                  have := List.find?_some hfind
                  simpa using this
                have heq : s0 = s :=
                  eq_of_mem_keysNodup hnd hs hs0mem (by rw [hs0id, hsid])
                rw [heq, hrun] at hact
                exact hact rfl
              · exact hmem_elim (List.mem_of_mem_filter ht2)
      | none =>
          rw [hfind] at ht
          dsimp only at ht
          unfold startFresh at ht
          split_ifs at ht with hcap
          · exact hmem_elim ht
          · dsimp only at ht
            rcases List.mem_cons.mp ht with rfl | ht2
            · have hsid : id = s.streamId := by rw [← hid, streamId_fresh]
              apply List.find?_eq_none.mp hfind s hs
              simp [hsid]
            · exact hmem_elim (List.mem_of_mem_filter ht2)
  | opStop id now =>
      simp only [applyOp, stopSessionFn] at ht
      cases hfind : r.findSession id with
      | none =>
          rw [hfind] at ht
          dsimp only at ht
          exact absurd ht hmem_elim
      | some s0 =>
          rw [hfind] at ht
          dsimp only at ht
          by_cases hact : s0.state.isActive = true
          · rw [if_pos hact] at ht
            dsimp only at ht
            rw [List.mem_map] at ht
            obtain ⟨u, hul, hut⟩ := ht
            by_cases huid : (u.streamId == id) = true
            · rw [if_pos huid] at hut
              have huid2 : u.streamId = id := by simpa using huid
              have htid : t.streamId = u.streamId := by
                rw [← hut, streamId_stopTransition]
              have hus : u = s :=
                eq_of_mem_keysNodup hnd hs hul (by rw [← htid, hid])
              rw [hus] at hut
              right
              refine ⟨now, ?_, hut.symm, rfl, ?_⟩
              · rw [← huid2, hus]
              · rw [← hut]
                rfl
            · rw [if_neg huid] at hut
              exact absurd (hut ▸ hul) hmem_elim
          · rw [if_neg hact] at ht
            exact absurd ht hmem_elim
  | opSweep dead =>
      simp only [applyOp, Registry.sweep] at ht
      rw [List.mem_map] at ht
      obtain ⟨u, hul, hut⟩ := ht
      have huid : u.streamId = s.streamId := by
        rw [← hid, ← hut, streamId_sweepSession]
      have hus : u = s := eq_of_mem_keysNodup hnd hs hul huid
      rw [hus] at hut
      unfold sweepSession at hut
      rw [if_pos hrun] at hut
      by_cases hdead : procDead dead s.processHandle = true
      · rw [if_pos hdead] at hut
        left
        exact ⟨dead, rfl, hdead, by rw [← hut], by rw [← hut]⟩
      · rw [if_neg hdead] at hut
        apply absurd _ hmem_elim
        rw [← hut, ← hus]
        exact hul
  | opGetStatus id =>
      simp only [applyOp] at ht
      exact absurd ht hmem_elim
  | opDelete id =>
      simp only [applyOp, Registry.deleteSession] at ht
      exact absurd (List.mem_of_mem_filter ht) hmem_elim

/-- Witness for C6: a sweep observing the dead process drives the running
session of stream 1 to Error with `UnexpectedExit`. -/
theorem running_exits_only_via_sweep_or_stop_witness :
    (∃ dead, Op.opSweep (fun _ => true) = Op.opSweep dead ∧
      procDead dead (demoRunning 1 7).processHandle = true ∧
      (demoErrored 1).state = .error ∧
      (demoErrored 1).lastError = some .unexpectedExit) ∨
    (∃ now, Op.opSweep (fun _ => true) = Op.opStop (demoRunning 1 7).streamId now ∧
      demoErrored 1 = finishStopping now (beginStopping (demoRunning 1 7)) ∧
      (beginStopping (demoRunning 1 7)).state = .stopping ∧
      (demoErrored 1).state = .stopped) :=
  running_exits_only_via_sweep_or_stop ⟨[demoRunning 1 7], 5⟩
    (.opSweep (fun _ => true)) (demoRunning 1 7) (demoErrored 1)
    (by decide) (by decide) rfl (by decide) rfl (by decide)

/-- C7: the status snapshot is a pure read — the status operation leaves the
registry unchanged — returning a well-formed record for every streamId and
every session state, whose fields mirror the session; in the Error state the
`lastError` reason is part of the snapshot. -/
theorem snapshot_pure_read (r : Registry) (id : Nat) :
    applyOp r (.opGetStatus id) = r ∧
    (snapshotOf r id).outputLocator = hlsUrlOf id ∧
    (snapshotOf r id).exists_ = (r.findSession id).isSome ∧
    (∀ s : Session, r.findSession id = some s →
      (snapshotOf r id).state = s.state ∧
      (snapshotOf r id).sourceUrl = s.rtspUrl ∧
      (snapshotOf r id).startedAt = s.startedAt ∧
      (snapshotOf r id).processAlive = s.processHandle.isSome ∧
      (s.state = .error → (snapshotOf r id).lastError = s.lastError)) := by
  refine ⟨rfl, ?_⟩
  unfold snapshotOf
  cases hfind : r.findSession id with
  | none =>
      refine ⟨rfl, by simp, ?_⟩
      intro s hsome
      cases hsome
  | some s0 =>
      refine ⟨rfl, by simp, ?_⟩
      intro s hsome
      injection hsome with h
      subst h
      exact ⟨rfl, rfl, rfl, rfl, fun _ => rfl⟩

/-- Witness for C7: the snapshot of an errored session reports its state and
its `lastError`, and the status operation leaves the registry unchanged. -/
theorem snapshot_pure_read_witness :
    applyOp ⟨[demoErrored 1], 5⟩ (.opGetStatus 1) = ⟨[demoErrored 1], 5⟩ ∧
    (snapshotOf ⟨[demoErrored 1], 5⟩ 1).state = (demoErrored 1).state ∧
    (snapshotOf ⟨[demoErrored 1], 5⟩ 1).lastError = (demoErrored 1).lastError :=
  ⟨(snapshot_pure_read ⟨[demoErrored 1], 5⟩ 1).1,
    ((snapshot_pure_read ⟨[demoErrored 1], 5⟩ 1).2.2.2 (demoErrored 1)
      (by decide)).1,
    ((snapshot_pure_read ⟨[demoErrored 1], 5⟩ 1).2.2.2 (demoErrored 1)
      (by decide)).2.2.2.2 (by decide)⟩

/-- C8: when neither a segment duration nor a playlist window length is
explicitly supplied, the encoder invocation uses the configured defaults:
segment duration 2 seconds and a playlist window of 10 segments. -/
theorem default_hls_settings (sourceUrl outputDir : String)
    (settings : EncodingSettings)
    (hseg : settings.segmentDuration = none)
    (hwin : settings.playlistLength = none) :
    (buildEncoderInvocation sourceUrl settings outputDir).hlsTime =
      HLS_SEGMENT_DURATION ∧
    (buildEncoderInvocation sourceUrl settings outputDir).hlsListSize =
      HLS_PLAYLIST_LENGTH ∧
    (buildEncoderInvocation sourceUrl settings outputDir).hlsTime = 2 ∧
    (buildEncoderInvocation sourceUrl settings outputDir).hlsListSize = 10 := by
  simp [buildEncoderInvocation, hseg, hwin, HLS_SEGMENT_DURATION,
    HLS_PLAYLIST_LENGTH]

/-- Witness for C8: concrete settings with no explicit HLS fields produce an
invocation with segment duration 2 and window 10. -/
theorem default_hls_settings_witness :
    (buildEncoderInvocation "rtsp://cam" ⟨"720p", 30, "1000k", none, none⟩
      "/streams/1").hlsTime = 2 ∧
    (buildEncoderInvocation "rtsp://cam" ⟨"720p", 30, "1000k", none, none⟩
      "/streams/1").hlsListSize = 10 :=
  ⟨(default_hls_settings "rtsp://cam" "/streams/1"
      ⟨"720p", 30, "1000k", none, none⟩ rfl rfl).2.2.1,
    (default_hls_settings "rtsp://cam" "/streams/1"
      ⟨"720p", 30, "1000k", none, none⟩ rfl rfl).2.2.2⟩

/-- C9 counterexample: an explicitly supplied `fps` of 0 does not pass
through `convertStreamToApi` unchanged — the JavaScript `||` operator
replaces the falsy 0 by the default 30. -/
theorem convertStreamToApi_passthrough_counterexample :
    (convertStreamToApi
      { name := "cam"
        rtsp_url := "rtsp://cam"
        settings :=
          some { quality := none, fps := some 0, resolution := none,
                 bitrate := none } }).settings.fps = 30 ∧
    (0 : Int) ≠ 30 :=
  ⟨rfl, by decide⟩

/-- C9 (amended): `convertStreamToApi` copies `name` and `rtsp_url`
verbatim; an absent (or falsy: empty-string or zero) settings field is
replaced by the fixed defaults medium / 30 / 720p / 1000k, and an explicitly
supplied truthy value passes through unchanged. -/
theorem convertStreamToApi_defaults (s : InStream) :
    (convertStreamToApi s).name = s.name ∧
    (convertStreamToApi s).rtsp_url = s.rtsp_url ∧
    (s.settings.bind InStreamSettings.quality = none →
      (convertStreamToApi s).settings.quality = "medium") ∧
    (s.settings.bind InStreamSettings.fps = none →
      (convertStreamToApi s).settings.fps = 30) ∧
    (s.settings.bind InStreamSettings.resolution = none →
      (convertStreamToApi s).settings.resolution = "720p") ∧
    (s.settings.bind InStreamSettings.bitrate = none →
      (convertStreamToApi s).settings.bitrate = "1000k") ∧
    (∀ v, s.settings.bind InStreamSettings.quality = some v → v ≠ "" →
      (convertStreamToApi s).settings.quality = v) ∧
    (∀ v, s.settings.bind InStreamSettings.fps = some v → v ≠ 0 →
      (convertStreamToApi s).settings.fps = v) ∧
    (∀ v, s.settings.bind InStreamSettings.resolution = some v → v ≠ "" →
      (convertStreamToApi s).settings.resolution = v) ∧
    (∀ v, s.settings.bind InStreamSettings.bitrate = some v → v ≠ "" →
      (convertStreamToApi s).settings.bitrate = v) ∧
    (s.settings.bind InStreamSettings.quality = some "" →
      (convertStreamToApi s).settings.quality = "medium") ∧
    (s.settings.bind InStreamSettings.fps = some 0 →
      (convertStreamToApi s).settings.fps = 30) ∧
    (s.settings.bind InStreamSettings.resolution = some "" →
      (convertStreamToApi s).settings.resolution = "720p") ∧
    (s.settings.bind InStreamSettings.bitrate = some "" →
      (convertStreamToApi s).settings.bitrate = "1000k") := by
  refine ⟨rfl, rfl, ?_, ?_, ?_, ?_, ?_, ?_, ?_, ?_, ?_, ?_, ?_, ?_⟩
  · intro h
    simp [convertStreamToApi, jsOrString, h]
  · intro h
    simp [convertStreamToApi, jsOrNum, h]
  · intro h
    simp [convertStreamToApi, jsOrString, h]
  · intro h
    simp [convertStreamToApi, jsOrString, h]
  · intro v hv hne
    simp [convertStreamToApi, jsOrString, hv, hne]
  · intro v hv hne
    simp [convertStreamToApi, jsOrNum, hv, hne]
  · intro v hv hne
    simp [convertStreamToApi, jsOrString, hv, hne]
  · intro v hv hne
    simp [convertStreamToApi, jsOrString, hv, hne]
  · intro h
    simp [convertStreamToApi, jsOrString, h]
  · intro h
    simp [convertStreamToApi, jsOrNum, h]
  · intro h
    simp [convertStreamToApi, jsOrString, h]
  · intro h
    simp [convertStreamToApi, jsOrString, h]

/-- Witness for C9 (amended): explicit truthy quality, fps and resolution
pass through and the absent bitrate gets the default; explicitly supplied
falsy fields (empty strings, zero fps) all get the defaults. -/
theorem convertStreamToApi_defaults_witness :
    (convertStreamToApi demoInStream).settings.quality = "high" ∧
    (convertStreamToApi demoInStream).settings.fps = 60 ∧
    (convertStreamToApi demoInStream).settings.resolution = "1080p" ∧
    (convertStreamToApi demoInStream).settings.bitrate = "1000k" ∧
    (convertStreamToApi demoFalsyInStream).settings.quality = "medium" ∧
    (convertStreamToApi demoFalsyInStream).settings.fps = 30 ∧
    (convertStreamToApi demoFalsyInStream).settings.resolution = "720p" ∧
    (convertStreamToApi demoFalsyInStream).settings.bitrate = "1000k" :=
  ⟨(convertStreamToApi_defaults demoInStream).2.2.2.2.2.2.1 "high" rfl
      (by decide),
    (convertStreamToApi_defaults demoInStream).2.2.2.2.2.2.2.1 60 rfl
      (by decide),
    (convertStreamToApi_defaults demoInStream).2.2.2.2.2.2.2.2.1 "1080p" rfl
      (by decide),
    (convertStreamToApi_defaults demoInStream).2.2.2.2.2.1 rfl,
    (convertStreamToApi_defaults demoFalsyInStream).2.2.2.2.2.2.2.2.2.2.1 rfl,
    (convertStreamToApi_defaults demoFalsyInStream).2.2.2.2.2.2.2.2.2.2.2.1 rfl,
    (convertStreamToApi_defaults
      demoFalsyInStream).2.2.2.2.2.2.2.2.2.2.2.2.1 rfl,
    (convertStreamToApi_defaults
      demoFalsyInStream).2.2.2.2.2.2.2.2.2.2.2.2.2 rfl⟩

theorem clampCoord_bounds (v : ℚ) : 0 ≤ clampCoord v ∧ clampCoord v ≤ 90 := by
  unfold clampCoord
  constructor
  · exact le_max_left 0 _
  · apply max_le
    · norm_num
    · calc min (100 - 10) v ≤ 100 - 10 := min_le_left _ _
        _ = 90 := by norm_num

/-- C10: every position reported to `onUpdateOverlay` during an overlay drag
is clamped componentwise to the closed interval [0, 90], regardless of the
raw cursor position. -/
theorem drag_position_clamped (draggedOverlay : Option String)
    (overlayFound : Bool) (clientX clientY rectLeft rectTop offX offY : ℚ)
    (p : Point)
    (h : handleMouseMove draggedOverlay overlayFound clientX clientY rectLeft
      rectTop offX offY = some p) :
    0 ≤ p.x ∧ p.x ≤ 90 ∧ 0 ≤ p.y ∧ p.y ≤ 90 := by
  unfold handleMouseMove at h
  cases draggedOverlay with
  | none => cases h
  | some o =>
      dsimp only at h
      by_cases hf : overlayFound = true
      · rw [if_pos hf] at h
        injection h with h
        subst h
        exact ⟨(clampCoord_bounds _).1, (clampCoord_bounds _).2,
          (clampCoord_bounds _).1, (clampCoord_bounds _).2⟩
      · rw [if_neg hf] at h
        cases h

/-- Witness for C10: a cursor far right and above the container still yields
a position inside [0, 90] × [0, 90]. -/
theorem drag_position_clamped_witness :
    0 ≤ (Point.mk 90 0).x ∧ (Point.mk 90 0).x ≤ 90 ∧
    0 ≤ (Point.mk 90 0).y ∧ (Point.mk 90 0).y ≤ 90 :=
  drag_position_clamped (some "o1") true 500 (-300) 0 0 5 5 ⟨90, 0⟩
    (by norm_num [handleMouseMove, clampCoord, min_def, max_def])

end Livesitter
